import Mathlib

/- Verification of the PPR vaccination cost dashboard (FAOEuFMD/PPR_Analysis).

The engine is embedded shallowly over the rationals: every Python float
formula in `app/ui/calculations.py`, `app/streamlit_app.py`,
`app/regions_countries.py`, `app/ui/continental_overview.py`,
`app/ui/episystems.py` and `src/data_load.py` is translated to an exact
computation on `ℚ`, dictionaries to association lists, and pandas frames to
column lists.  All definitions are executable. -/

/-- Python `dict.get(key, default)` over an association list: the first
binding of `k` wins, `d` when `k` is absent. -/
def dictGetD {α : Type} (m : List (String × α)) (k : String) (d : α) : α :=
  match m with
  | [] => d
  | (k', v) :: rest => if k = k' then v else dictGetD rest k d

/-- Python `str.capitalize()`: first character upper-cased, the rest
lower-cased (used on the `Species` column in `app/streamlit_app.py`). -/
def capitalize (s : String) : String :=
  match s.data with
  | [] => ""
  | c :: cs => String.mk (c.toUpper :: cs.map Char.toLower)

/-- `vaccinated_initial` from `app/ui/calculations.py` (line 7):
`population * coverage`. -/
def vaccinated_initial (population coverage : ℚ) : ℚ :=
  population * coverage

/-- `doses_required` from `app/ui/calculations.py` (line 16):
`vaccinated_initial * (1 + wastage)`. -/
def doses_required (vaccinated wastage : ℚ) : ℚ :=
  vaccinated * (1 + wastage)

/-- `cost_before_adj` from `app/ui/calculations.py` (line 25):
`doses_required * cost_per_animal`. -/
def cost_before_adj (doses cost_per_animal : ℚ) : ℚ :=
  doses * cost_per_animal

/-- `political_multiplier` from `app/ui/calculations.py` (line 34), with the
source's default thresholds `(0.4, 0.7)` and multipliers `(1.0, 1.5, 2.0)`. -/
def political_multiplier (psi : ℚ) (thresholds : ℚ × ℚ := (2/5, 7/10))
    (multipliers : ℚ × ℚ × ℚ := (1, 3/2, 2)) : ℚ :=
  if psi < thresholds.1 then multipliers.1
  else if psi < thresholds.2 then multipliers.2.1
  else multipliers.2.2

/-- `delivery_channel_multiplier` from `app/ui/calculations.py` (line 49):
`multipliers.get(channel, 1.0)` with defaults Public 1.2, Mixed 1.0,
Private 0.85. -/
def delivery_channel_multiplier (channel : String)
    (multipliers : List (String × ℚ) :=
      [("Public", 6/5), ("Mixed", 1), ("Private", 17/20)]) : ℚ :=
  dictGetD multipliers channel 1

/-- `newborns` from `app/ui/calculations.py` (line 57):
`vaccinated_initial * rates.get(species, 0.5)` with default rates
Goats 0.6, Sheep 0.4. -/
def newborns (species : String) (vaccinated : ℚ)
    (rates : List (String × ℚ) := [("Goats", 3/5), ("Sheep", 2/5)]) : ℚ :=
  vaccinated * dictGetD rates species (1/2)

/-- `second_year_coverage` from `app/ui/calculations.py` (line 66):
`newborns * coverage`, default coverage 1.0. -/
def second_year_coverage (newborn_count : ℚ) (coverage : ℚ := 1) : ℚ :=
  newborn_count * coverage

/-- `total_cost` from `app/ui/calculations.py` (line 74):
`cost_before_adj * political_mult * delivery_mult`. -/
def total_cost (cost_before_adjustment political_mult delivery_mult : ℚ) : ℚ :=
  cost_before_adjustment * political_mult * delivery_mult

/-- `get_political_mult` from `app/streamlit_app.py` (lines 210-216),
parameterised by the sidebar thresholds and multipliers. -/
def get_political_mult (psi thresh_low thresh_high mult_high_risk
    mult_moderate_risk mult_low_risk : ℚ) : ℚ :=
  if psi < thresh_low then mult_high_risk
  else if psi < thresh_high then mult_moderate_risk
  else mult_low_risk

/-- Membership test `species in ["Goat", "Goats"]` of
`app/streamlit_app.py` (lines 238, 253, 264). -/
def speciesGoat (s : String) : Bool :=
  s = "Goat" || s = "Goats"

/-- Membership test `species in ["Sheep", "Sheeps"]` of
`app/streamlit_app.py` (lines 240, 266). -/
def speciesSheep (s : String) : Bool :=
  s = "Sheep" || s = "Sheeps"

/-- The newborn-rate selection of the second-year loop in
`app/streamlit_app.py` (line 253): goat-like species get the goats rate,
every other species falls through to the sheep rate. -/
def streamlit_newborn_rate (species : String) (newborn_goats newborn_sheep : ℚ) : ℚ :=
  if speciesGoat (capitalize species) then newborn_goats / 100
  else newborn_sheep / 100

/-- Per-year per-country statistics accumulated by the loops of
`app/streamlit_app.py` (lines 236-244, 264-270): vaccinated goats,
vaccinated sheep, doses, cost, wasted. -/
@[ext] structure YearStats where
  goat : ℚ
  sheep : ℚ
  doses : ℚ
  cost : ℚ
  wasted : ℚ
deriving DecidableEq

instance : Zero YearStats := ⟨⟨0, 0, 0, 0, 0⟩⟩

instance : Add YearStats :=
  ⟨fun a b => ⟨a.goat + b.goat, a.sheep + b.sheep, a.doses + b.doses,
    a.cost + b.cost, a.wasted + b.wasted⟩⟩

theorem YearStats.zero_components : (0 : YearStats) = ⟨0, 0, 0, 0, 0⟩ := rfl

theorem YearStats.add_components (a b : YearStats) :
    a + b = ⟨a.goat + b.goat, a.sheep + b.sheep, a.doses + b.doses,
      a.cost + b.cost, a.wasted + b.wasted⟩ := rfl

instance : AddCommMonoid YearStats where
  add_assoc a b c := by ext <;> simp [YearStats.add_components] <;> ring
  zero_add a := by ext <;> simp [YearStats.add_components, YearStats.zero_components]
  add_zero a := by ext <;> simp [YearStats.add_components, YearStats.zero_components]
  add_comm a b := by ext <;> simp [YearStats.add_components] <;> ring
  nsmul := nsmulRec

/-- The two-year statistics record each country accumulates
(`country_stats[country] = {"Y1": ..., "Y2": ...}`,
`app/streamlit_app.py` line 237). -/
@[ext] structure CountryStats where
  y1 : YearStats
  y2 : YearStats
deriving DecidableEq

instance : Zero CountryStats := ⟨⟨0, 0⟩⟩

instance : Add CountryStats := ⟨fun a b => ⟨a.y1 + b.y1, a.y2 + b.y2⟩⟩

theorem CountryStats.zero_pair : (0 : CountryStats) = ⟨0, 0⟩ := rfl

theorem CountryStats.add_pair (a b : CountryStats) :
    a + b = ⟨a.y1 + b.y1, a.y2 + b.y2⟩ := rfl

instance : AddCommMonoid CountryStats where
  add_assoc a b c := by
    ext <;> simp [CountryStats.add_pair, YearStats.add_components] <;> ring
  zero_add a := by
    ext <;> simp [CountryStats.add_pair, CountryStats.zero_pair,
      YearStats.add_components, YearStats.zero_components]
  add_zero a := by
    ext <;> simp [CountryStats.add_pair, CountryStats.zero_pair,
      YearStats.add_components, YearStats.zero_components]
  add_comm a b := by
    ext <;> simp [CountryStats.add_pair, YearStats.add_components] <;> ring
  nsmul := nsmulRec

/-- The per-record contribution of the first-year loop of
`app/streamlit_app.py` (lines 223-244).  `cov_pct` and `wast_pct` are the
sidebar percentages (the loop divides both by 100); the species string is
capitalised before the goat/sheep dispatch. -/
def y1_record_stats (species : String)
    (pop cov_pct wast_pct cpa polMult delMult : ℚ) : YearStats :=
  let sp := capitalize species
  let vaccinated := vaccinated_initial pop (cov_pct / 100)
  let doses := doses_required vaccinated (wast_pct / 100)
  let cost := total_cost (cost_before_adj doses cpa) polMult delMult
  { goat := if speciesGoat sp then vaccinated else 0
  , sheep := if ¬ speciesGoat sp ∧ speciesSheep sp then vaccinated else 0
  , doses := doses
  , cost := cost
  , wasted := doses - vaccinated }

/-- The per-record contribution of the second-year loop of
`app/streamlit_app.py` (lines 247-270): the newborn base is the Year-1
vaccinated count times the species newborn rate, then the configured
second-year coverage, wastage and cost multipliers are applied. -/
def y2_record_stats (species : String)
    (pop cov_pct wast_pct syc_pct ng_pct ns_pct cpa polMult delMult : ℚ) :
    YearStats :=
  let sp := capitalize species
  let vaccinated := vaccinated_initial pop (cov_pct / 100)
  let newborn_count := vaccinated * streamlit_newborn_rate species ng_pct ns_pct
  let vaccinated_y2 := second_year_coverage newborn_count (syc_pct / 100)
  let doses_y2 := doses_required vaccinated_y2 (wast_pct / 100)
  let cost := total_cost (cost_before_adj doses_y2 cpa) polMult delMult
  { goat := if speciesGoat sp then vaccinated_y2 else 0
  , sheep := if ¬ speciesGoat sp ∧ speciesSheep sp then vaccinated_y2 else 0
  , doses := doses_y2
  , cost := cost
  , wasted := doses_y2 - vaccinated_y2 }

/-- `country_region_map` from `app/streamlit_app.py` (lines 130-194). -/
def country_region_map : List (String × String) :=
  [ ("Algeria", "North Africa")
  , ("Egypt", "North Africa")
  , ("Libya", "North Africa")
  , ("Morocco", "North Africa")
  , ("Sudan", "North Africa")
  , ("Tunisia", "North Africa")
  , ("Benin", "West Africa")
  , ("Burkina Faso", "West Africa")
  , ("Cape Verde", "West Africa")
  , ("Gambia", "West Africa")
  , ("Ghana", "West Africa")
  , ("Guinea", "West Africa")
  , ("Guinea-Bissau", "West Africa")
  , ("Côte d'Ivoire", "West Africa")
  , ("Liberia", "West Africa")
  , ("Mali", "West Africa")
  , ("Mauritania", "West Africa")
  , ("Niger", "West Africa")
  , ("Nigeria", "West Africa")
  , ("Senegal", "West Africa")
  , ("Sierra Leone", "West Africa")
  , ("Togo", "West Africa")
  , ("Burundi", "East Africa")
  , ("Comoros", "East Africa")
  , ("Djibouti", "East Africa")
  , ("Eritrea", "East Africa")
  , ("Ethiopia", "East Africa")
  , ("Kenya", "East Africa")
  , ("Madagascar", "East Africa")
  , ("Malawi", "East Africa")
  , ("Mauritius", "East Africa")
  , ("Mozambique", "East Africa")
  , ("Rwanda", "East Africa")
  , ("Seychelles", "East Africa")
  , ("Somalia", "East Africa")
  , ("South Sudan", "East Africa")
  , ("United Republic of Tanzania", "East Africa")
  , ("Uganda", "East Africa")
  , ("Angola", "Central Africa")
  , ("Cameroon", "Central Africa")
  , ("Central African Republic", "Central Africa")
  , ("Chad", "Central Africa")
  , ("Congo", "Central Africa")
  , ("Democratic Republic of the Congo", "Central Africa")
  , ("Equatorial Guinea", "Central Africa")
  , ("Gabon", "Central Africa")
  , ("Sao Tome and Principe", "Central Africa")
  , ("Botswana", "Southern Africa")
  , ("Eswatini", "Southern Africa")
  , ("Lesotho", "Southern Africa")
  , ("Namibia", "Southern Africa")
  , ("South Africa", "Southern Africa")
  , ("Zambia", "Southern Africa")
  , ("Zimbabwe", "Southern Africa")
  , ("Western Sahara", "North Africa")
  , ("Reunion", "Southern Africa")
  ]

/-- Modelled from the spec: `cost_data.py` (from which `regions_countries.py`
and `subregions.py` import `country_region_map`) is not among the staged
source files.  The spec records that the region reference table is duplicated
across modules, so the module's copy is modelled as the same mapping as
`country_region_map` in `app/streamlit_app.py`. -/
def cost_data_country_region_map : List (String × String) :=
  country_region_map

/-- The region lookup of `get_country_cost` in `app/streamlit_app.py`
(line 198): `country_region_map.get(country, "West Africa")`. -/
def pricing_region (country : String) : String :=
  dictGetD country_region_map country "West Africa"

/-- The region lookup of the region breakdown of `app/streamlit_app.py`
(line 911): `country_region_map.get(country, "West Africa")`. -/
def streamlit_aggregation_region (country : String) : String :=
  dictGetD country_region_map country "West Africa"

/-- The region lookup of the region aggregation in
`app/regions_countries.py` (line 137), over the `cost_data` copy of the
mapping. -/
def rc_aggregation_region (country : String) : String :=
  dictGetD cost_data_country_region_map country "West Africa"

/-- The name normalisation of the exclusion filter:
`country.lower().replace(" ", "")` (`app/regions_countries.py` lines 27, 30;
`app/ui/continental_overview.py` lines 49, 53). -/
def normCountry (s : String) : String :=
  String.mk ((s.data.map Char.toLower).filter (fun c => c ≠ ' '))

/-- `ppr_free_countries` of `filter_ppr_free_countries` in
`app/regions_countries.py` (lines 14-19). -/
def ppr_free_countries : List String :=
  [ "Botswana", "eSwatini", "Eswatini", "Lesotho", "Madagascar"
  , "Mauritius", "Namibia", "South Africa", "Kingdom of eSwatini"
  , "Cabo Verde", "Cape Verde", "Sao Tome and Principe", "Malawi"
  , "Mozambique", "Zambia", "Zimbabwe" ]

/-- A country is excluded when its normalised name equals a normalised name
of the exclusion set (`app/regions_countries.py` lines 26-33): exact
normalised matching, no partial or fuzzy matching. -/
def is_ppr_free (country : String) : Bool :=
  ppr_free_countries.any (fun f => normCountry country = normCountry f)

/-- `filter_ppr_free_countries` from `app/regions_countries.py`
(lines 11-37): the surviving stats and the excluded country names. -/
def filter_ppr_free_countries
    (country_stats : List (String × CountryStats)) :
    List (String × CountryStats) × List String :=
  ( country_stats.filter (fun p => ¬ is_ppr_free p.1)
  , (country_stats.filter (fun p => is_ppr_free p.1)).map Prod.fst )

/-- `ppr_free_countries` of `app/ui/continental_overview.py` (lines 36-39):
the continental overview uses its own, smaller exclusion set. -/
def continental_ppr_free : List String :=
  [ "Botswana", "eSwatini", "Eswatini", "Lesotho", "Madagascar"
  , "Mauritius", "Namibia", "South Africa", "Kingdom of eSwatini" ]

/-- The continental filter of `app/ui/continental_overview.py`
(lines 45-60). -/
def continental_filtered (country_stats : List (String × CountryStats)) :
    List (String × CountryStats) :=
  country_stats.filter
    (fun p => ¬ continental_ppr_free.any (fun f => normCountry p.1 = normCountry f))

/-- Adding one country's record into the per-region accumulator
(`region_stats[region][...] += stats[...]`, `app/streamlit_app.py`
lines 912-928 and `app/regions_countries.py` lines 138-163): the first
bucket with the key is updated, a new bucket is appended otherwise. -/
def bucketAdd (acc : List (String × CountryStats)) (k : String)
    (v : CountryStats) : List (String × CountryStats) :=
  match acc with
  | [] => [(k, v)]
  | (k', v') :: rest =>
    if k' = k then (k', v' + v) :: rest else (k', v') :: bucketAdd rest k v

/-- The region-breakdown loop: every (country, stats) pair is added into the
bucket of `regionOf country`. -/
def regionFold (regionOf : String → String)
    (country_stats : List (String × CountryStats)) :
    List (String × CountryStats) :=
  country_stats.foldl (fun acc p => bucketAdd acc (regionOf p.1) p.2) []

/-- The region breakdown of `app/streamlit_app.py` (lines 909-928): built
directly from `country_stats`, with no exclusion filter. -/
def streamlit_region_stats (country_stats : List (String × CountryStats)) :
    List (String × CountryStats) :=
  regionFold streamlit_aggregation_region country_stats

/-- The region breakdown of `app/regions_countries.py` (lines 109, 134-163):
the exclusion filter runs first, then the surviving stats are bucketed by
region. -/
def rc_region_stats (country_stats : List (String × CountryStats)) :
    List (String × CountryStats) :=
  regionFold rc_aggregation_region (filter_ppr_free_countries country_stats).1

/-- The total of all records of a stats list (member records summed
componentwise). -/
def statsSum (l : List (String × CountryStats)) : CountryStats :=
  (l.map Prod.snd).sum

/-- A region's aggregate figure in a bucket list (0 when the region has no
bucket). -/
def bucketVal (buckets : List (String × CountryStats)) (r : String) :
    CountryStats :=
  dictGetD buckets r 0

/-- Continental Y1 cost total from `app/ui/continental_overview.py`
(line 90): the sum of `stats["Y1"]["cost"]` over the filtered stats. -/
def continental_total_cost_y1 (country_stats : List (String × CountryStats)) : ℚ :=
  ((continental_filtered country_stats).map (fun p => p.2.y1.cost)).sum

/-- Continental Y2 cost total from `app/ui/continental_overview.py`
(line 98). -/
def continental_total_cost_y2 (country_stats : List (String × CountryStats)) : ℚ :=
  ((continental_filtered country_stats).map (fun p => p.2.y2.cost)).sum

/-- A spreadsheet cell: a number, a text, or a missing value (pandas NaN /
Python None). -/
inductive Cell where
  | num (q : ℚ)
  | str (s : String)
  | null
deriving DecidableEq

/-- A tabular frame, column-oriented: the row count and the named columns
(in order). -/
structure DataFrame where
  nRows : Nat
  cols : List (String × List Cell)
deriving DecidableEq

/-- `col in df.columns`. -/
def hasCol (df : DataFrame) (c : String) : Bool :=
  df.cols.any (fun p => p.1 = c)

/-- `df.rename(columns={o: n})`: every column named `o` is renamed to `n`,
data unchanged. -/
def renameCol (df : DataFrame) (o n : String) : DataFrame :=
  { df with cols := df.cols.map (fun p => if p.1 = o then (n, p.2) else p) }

/-- `df[c] = default`: a constant column appended (pandas broadcasts the
scalar over the row count). -/
def addCol (df : DataFrame) (c : String) (d : Cell) : DataFrame :=
  { df with cols := df.cols ++ [(c, List.replicate df.nRows d)] }

/-- `required_cols` of `validate_subregions` in `src/data_load.py`
(line 71). -/
def subregions_required_cols : List String :=
  ["Country", "ADM1", "Species", "Density", "VADEMOS National Forecasted Value"]

/-- The documented defaults of `validate_subregions` (`src/data_load.py`
lines 74-79): density weight 1.0, forecast population 0, textual fields the
literal "Unknown". -/
def subregions_default (c : String) : Cell :=
  if c = "Density" then Cell.num 1
  else if c = "VADEMOS National Forecasted Value" then Cell.num 0
  else Cell.str "Unknown"

/-- The audit-log record appended for a synthesized column
(`src/data_load.py` line 80). -/
def missing_col_msg (c : String) : String :=
  "Missing column " ++ c ++ " in Subregions.xlsx. Defaulted."

/-- One iteration of the missing-column loop of `validate_subregions`
(`src/data_load.py` lines 72-80). -/
def fillMissing (acc : DataFrame × List String) (c : String) :
    DataFrame × List String :=
  if hasCol acc.1 c then acc
  else (addCol acc.1 c (subregions_default c), acc.2 ++ [missing_col_msg c])

/-- The first rename step of `validate_subregions` (`src/data_load.py`
lines 62-65): `ADM1_Name` to `ADM1`, only when `ADM1` is absent. -/
def adm1_renamed (df : DataFrame) (log : List String) :
    DataFrame × List String :=
  if hasCol df "ADM1_Name" && !hasCol df "ADM1"
  then (renameCol df "ADM1_Name" "ADM1", log ++ ["Mapped ADM1_Name to ADM1."])
  else (df, log)

/-- The two rename steps of `validate_subregions` (`src/data_load.py`
lines 62-69): `ADM1_Name` to `ADM1` and `Specie` to `Species`, each only
when the canonical name is absent. -/
def subregions_renamed (df : DataFrame) (log : List String) :
    DataFrame × List String :=
  let step1 := adm1_renamed df log
  if hasCol step1.1 "Specie" && !hasCol step1.1 "Species"
  then (renameCol step1.1 "Specie" "Species",
        step1.2 ++ ["Mapped Specie to Species."])
  else step1

/-- `validate_subregions` from `src/data_load.py` (lines 61-83): renames,
then the missing-column loop.  The final line of the source only re-orders
columns for downstream display; column order is not modelled. -/
def validate_subregions (df : DataFrame) (log : List String) :
    DataFrame × List String :=
  subregions_required_cols.foldl fillMissing (subregions_renamed df log)

/-- `fillna(0)` on a column (`src/data_load.py` line 51). -/
def fillna0 (col : List Cell) : List Cell :=
  col.map (fun cell => match cell with | Cell.null => Cell.num 0 | c => c)

/-- `required_cols` of `validate_national` (`src/data_load.py` line 54). -/
def national_required_cols : List String :=
  ["Country", "Species", "Population", "Political_Stability_Index"]

/-- `validate_national` from `src/data_load.py` (lines 44-59): the `Specie`
rename (only when `Species` is absent), `Population` filled from the
VADEMOS forecast column with missing values as 0, and the required-column
projection.  The duplicate-column drop of lines 57-58 is a no-op on frames
without duplicate names and is not modelled further. -/
def validate_national (df : DataFrame) (log : List String) :
    DataFrame × List String :=
  let step1 :=
    if hasCol df "Specie" && !hasCol df "Species"
    then (renameCol df "Specie" "Species", log ++ ["Mapped Specie to Species."])
    else (df, log)
  let step2 :=
    match step1.1.cols.find? (fun p => p.1 = "VADEMOS Forecasted Value") with
    | some p =>
      ({ step1.1 with cols := step1.1.cols ++ [("Population", fillna0 p.2)] },
       step1.2 ++ ["Set Population from VADEMOS Forecasted Value."])
    | none => step1
  ({ step2.1 with
     cols := step2.1.cols.filter (fun p => p.1 ∈ national_required_cols) },
   step2.2)

/-- `read_xlsx` from `src/data_load.py` (lines 25-42): an unreadable file
(modelled as `none`) raises, propagated to the caller; a readable file is
projected to the required columns and returned. -/
def read_xlsx (file : Option DataFrame) : Except String DataFrame :=
  match file with
  | none => Except.error "ERROR reading XLSX"
  | some raw =>
    Except.ok
      { raw with
        cols := raw.cols.filter (fun p =>
          p.1 ∈ ["Country", "Specie", "VADEMOS Forecasted Value",
                 "Political_Stability_Index"]) }

/-- The fields of one species row consumed by `calculate_costs` in
`app/ui/episystems.py` (lines 224-270): the `100%_Coverage` base population
cell and the species name. -/
structure EntityData where
  coverage100 : Cell
  species : String
deriving DecidableEq

/-- `st.session_state.scenario_params` of `app/ui/episystems.py`
(lines 44-50). -/
structure ScenarioParams where
  coverage_rate : ℚ
  wastage_rate : ℚ
  cost_per_animal : ℚ
  psi : ℚ
  delivery_channel : String
deriving DecidableEq

/-- The result dictionary of `calculate_costs` (`app/ui/episystems.py`
lines 249-254, 265-270). -/
structure Figures where
  animals_vaccinated : ℚ
  doses_needed : ℚ
  doses_wasted : ℚ
  total_cost_val : ℚ
deriving DecidableEq

/-- Python `float(cell)`: a number converts, text raises `ValueError` and a
missing value raises `TypeError` (the loader produces numeric cells,
`"Unknown"` markers or blanks in this column, so text never converts). -/
def pythonFloat : Cell → Except String ℚ
  | Cell.num q => Except.ok q
  | Cell.str s => Except.error ("could not convert string to float: " ++ s)
  | Cell.null => Except.error "float() argument must be a number"

/-- The three ways `calculate_costs` can come back: a result dictionary, the
empty dictionary for absent data (`if data is None: return {}`), or the
empty dictionary after `st.error` reported an exception caught at the
entity's boundary. -/
inductive CalcOutcome where
  | ok (f : Figures)
  | empty
  | failed (msg : String)
deriving DecidableEq

/-- `calculate_costs` from `app/ui/episystems.py` (lines 224-273): Year 1
runs the base chain, Year 2 runs the newborn cascade with the calculation
module's default newborn rates and default (100%) second-year coverage; any
exception inside the body is caught, reported with `st.error`, and turns
into the empty result. -/
def calculate_costs (data : Option EntityData) (params : ScenarioParams)
    (year : Nat) : CalcOutcome :=
  match data with
  | none => CalcOutcome.empty
  | some d =>
    match pythonFloat d.coverage100 with
    | Except.error e => CalcOutcome.failed ("Calculation error: " ++ e)
    | Except.ok population =>
      let coverage := params.coverage_rate
      let wastage := params.wastage_rate
      let cpa := params.cost_per_animal
      let pol_mult := political_multiplier params.psi
      let del_mult := delivery_channel_multiplier params.delivery_channel
      if year = 1 then
        let vacc_init := vaccinated_initial population coverage
        let doses := doses_required vacc_init wastage
        let final_cost := total_cost (cost_before_adj doses cpa) pol_mult del_mult
        CalcOutcome.ok
          { animals_vaccinated := vacc_init
          , doses_needed := doses
          , doses_wasted := doses - vacc_init
          , total_cost_val := final_cost }
      else
        let vacc_init := vaccinated_initial population coverage
        let new_animals := newborns d.species vacc_init
        let vacc_y2 := second_year_coverage new_animals
        let doses := doses_required vacc_y2 wastage
        let final_cost := total_cost (cost_before_adj doses cpa) pol_mult del_mult
        CalcOutcome.ok
          { animals_vaccinated := vacc_y2
          , doses_needed := doses
          , doses_wasted := doses - vacc_y2
          , total_cost_val := final_cost }

/-- `results.get(key, 0) if results else 0` (`app/ui/episystems.py`
lines 280-288): an empty or failed outcome contributes 0. -/
def getFig (o : CalcOutcome) (proj : Figures → ℚ) : ℚ :=
  match o with
  | CalcOutcome.ok f => proj f
  | CalcOutcome.empty => 0
  | CalcOutcome.failed _ => 0

/-- One row of the episystem results table (`app/ui/episystems.py`
lines 220-290), assembled from the goat and sheep outcomes of both years. -/
structure RowResult where
  goats_y1 : ℚ
  sheep_y1 : ℚ
  total_y1 : ℚ
  cost_y1 : ℚ
  doses_y1 : ℚ
  wasted_y1 : ℚ
  goats_y2 : ℚ
  sheep_y2 : ℚ
  total_y2 : ℚ
  cost_y2 : ℚ
  doses_y2 : ℚ
  wasted_y2 : ℚ
deriving DecidableEq

/-- The row for one (country, subregion) pair (`app/ui/episystems.py`
lines 275-288): per-species outcomes with every figure falling back to 0. -/
def pair_row (params : ScenarioParams)
    (goats_data sheep_data : Option EntityData) : RowResult :=
  let g1 := calculate_costs goats_data params 1
  let s1 := calculate_costs sheep_data params 1
  let g2 := calculate_costs goats_data params 2
  let s2 := calculate_costs sheep_data params 2
  { goats_y1 := getFig g1 Figures.animals_vaccinated
  , sheep_y1 := getFig s1 Figures.animals_vaccinated
  , total_y1 := getFig g1 Figures.animals_vaccinated + getFig s1 Figures.animals_vaccinated
  , cost_y1 := getFig g1 Figures.total_cost_val + getFig s1 Figures.total_cost_val
  , doses_y1 := getFig g1 Figures.doses_needed + getFig s1 Figures.doses_needed
  , wasted_y1 := getFig g1 Figures.doses_wasted + getFig s1 Figures.doses_wasted
  , goats_y2 := getFig g2 Figures.animals_vaccinated
  , sheep_y2 := getFig s2 Figures.animals_vaccinated
  , total_y2 := getFig g2 Figures.animals_vaccinated + getFig s2 Figures.animals_vaccinated
  , cost_y2 := getFig g2 Figures.total_cost_val + getFig s2 Figures.total_cost_val
  , doses_y2 := getFig g2 Figures.doses_needed + getFig s2 Figures.doses_needed
  , wasted_y2 := getFig g2 Figures.doses_wasted + getFig s2 Figures.doses_wasted }

/-- The results table (`app/ui/episystems.py` lines 189-290): one row per
(country, subregion) pair, each computed independently. -/
def buildTable (params : ScenarioParams)
    (pairs : List (Option EntityData × Option EntityData)) : List RowResult :=
  pairs.map (fun p => pair_row params p.1 p.2)

/-- A concrete two-year stats record with a Year-1 cost of 100, used to
evaluate the aggregation paths on concrete inputs. -/
def demo_stats : CountryStats :=
  { y1 := { goat := 300, sheep := 200, doses := 550, cost := 100, wasted := 50 }
  , y2 := { goat := 0, sheep := 0, doses := 0, cost := 0, wasted := 0 } }

/-- A second concrete record, for a non-excluded country. -/
def demo_stats2 : CountryStats :=
  { y1 := { goat := 10, sheep := 20, doses := 33, cost := 7, wasted := 3 }
  , y2 := { goat := 4, sheep := 6, doses := 11, cost := 2, wasted := 1 } }

/-- A concrete frame with columns `Country` and `Specie` only (two rows), to
exercise the schema normalizer: `Species`, `Density`, `ADM1` and the
forecast column are all absent. -/
def demo_frame : DataFrame :=
  { nRows := 2
  , cols := [ ("Country", [Cell.str "Chad", Cell.str "Chad"])
            , ("Specie", [Cell.str "Goats", Cell.str "Sheep"]) ] }

/-- A concrete malformed species row: the `100%_Coverage` cell holds the
text marker `"Unknown"`, on which Python `float` raises. -/
def demo_bad_entity : EntityData :=
  { coverage100 := Cell.str "Unknown", species := "Goats" }

/-- A concrete well-formed species row. -/
def demo_good_entity : EntityData :=
  { coverage100 := Cell.num 1000, species := "Goats" }

/-- Concrete scenario parameters (the episystem sidebar defaults:
coverage 80%, wastage 15%, cost 0.25, PSI 0.5, Mixed delivery). -/
def demo_params : ScenarioParams :=
  { coverage_rate := 4/5, wastage_rate := 3/20, cost_per_animal := 1/4
  , psi := 1/2, delivery_channel := "Mixed" }

theorem dictGetD_of_not_mem {α : Type} (m : List (String × α)) (k : String)
    (d : α) (h : ∀ p ∈ m, p.1 ≠ k) : dictGetD m k d = d := by
  induction m with
  | nil => rfl
  | cons p rest ih =>
    obtain ⟨k', v⟩ := p
    have hk : ¬ (k = k') := fun he => h (k', v) (by simp) he.symm
    simpa [dictGetD, hk] using ih (fun q hq => h q (by simp [hq]))

theorem statsSum_nil : statsSum [] = 0 := rfl

theorem statsSum_cons (p : String × CountryStats)
    (l : List (String × CountryStats)) :
    statsSum (p :: l) = p.2 + statsSum l := by
  simp [statsSum]

theorem statsSum_bucketAdd (acc : List (String × CountryStats)) (k : String)
    (v : CountryStats) :
    statsSum (bucketAdd acc k v) = statsSum acc + v := by
  induction acc with
  | nil => simp [bucketAdd, statsSum_cons, statsSum_nil]
  | cons p rest ih =>
    obtain ⟨k', v'⟩ := p
    by_cases h : k' = k
    · simp only [bucketAdd, if_pos h, statsSum_cons]
      abel
    · simp only [bucketAdd, if_neg h, statsSum_cons, ih]
      abel

theorem bucketVal_nil (r : String) : bucketVal [] r = 0 := rfl

theorem bucketVal_bucketAdd (acc : List (String × CountryStats)) (k : String)
    (v : CountryStats) (r : String) :
    bucketVal (bucketAdd acc k v) r
      = bucketVal acc r + (if k = r then v else 0) := by
  induction acc with
  | nil =>
    by_cases h : k = r
    · subst h
      simp [bucketVal, bucketAdd, dictGetD]
    · have h' : ¬ (r = k) := fun he => h he.symm
      simp [bucketVal, bucketAdd, dictGetD, h, h']
  | cons p rest ih =>
    obtain ⟨k', v'⟩ := p
    by_cases hk : k' = k
    · subst hk
      by_cases hr : r = k'
      · subst hr
        simp [bucketVal, bucketAdd, dictGetD]
      · have h2 : ¬ (k' = r) := fun he => hr he.symm
        simp [bucketVal, bucketAdd, dictGetD, hr, h2]
    · by_cases hr : r = k'
      · have h3 : ¬ (k = r) := fun he => hk ((he.trans hr).symm)
        have h4 : ¬ (k = k') := fun he => hk he.symm
        simp [bucketVal, bucketAdd, dictGetD, hk, hr, h3, h4]
      · simpa [bucketVal, bucketAdd, dictGetD, hk, hr] using ih

theorem statsSum_regionFold_aux (regionOf : String → String)
    (l : List (String × CountryStats)) :
    ∀ acc, statsSum (l.foldl (fun a p => bucketAdd a (regionOf p.1) p.2) acc)
      = statsSum acc + statsSum l := by
  induction l with
  | nil => intro acc; simp [statsSum_nil]
  | cons p rest ih =>
    intro acc
    simp only [List.foldl_cons]
    rw [ih, statsSum_bucketAdd, statsSum_cons]
    abel

theorem statsSum_regionFold (regionOf : String → String)
    (l : List (String × CountryStats)) :
    statsSum (regionFold regionOf l) = statsSum l := by
  simpa [statsSum_nil] using statsSum_regionFold_aux regionOf l []

theorem bucketVal_regionFold_aux (regionOf : String → String) (r : String)
    (l : List (String × CountryStats)) :
    ∀ acc, bucketVal (l.foldl (fun a p => bucketAdd a (regionOf p.1) p.2) acc) r
      = bucketVal acc r + statsSum (l.filter (fun p => regionOf p.1 = r)) := by
  induction l with
  | nil => intro acc; simp [statsSum_nil]
  | cons p rest ih =>
    intro acc
    simp only [List.foldl_cons]
    rw [ih, bucketVal_bucketAdd]
    by_cases h : regionOf p.1 = r
    · simp [List.filter_cons, h, statsSum_cons]
      abel
    · simp [List.filter_cons, h]

theorem bucketVal_regionFold (regionOf : String → String) (r : String)
    (l : List (String × CountryStats)) :
    bucketVal (regionFold regionOf l) r
      = statsSum (l.filter (fun p => regionOf p.1 = r)) := by
  simpa [bucketVal_nil] using bucketVal_regionFold_aux regionOf r l []

theorem statsSum_cost_y1 (l : List (String × CountryStats)) :
    (l.map (fun p => p.2.y1.cost)).sum = (statsSum l).y1.cost := by
  induction l with
  | nil => rfl
  | cons p rest ih =>
    simp [statsSum_cons, CountryStats.add_pair, YearStats.add_components, ih]

theorem statsSum_cost_y2 (l : List (String × CountryStats)) :
    (l.map (fun p => p.2.y2.cost)).sum = (statsSum l).y2.cost := by
  induction l with
  | nil => rfl
  | cons p rest ih =>
    simp [statsSum_cons, CountryStats.add_pair, YearStats.add_components, ih]

theorem hasCol_renameCol_other (df : DataFrame) (o n c : String)
    (h1 : c ≠ o) (h2 : c ≠ n) :
    hasCol (renameCol df o n) c = hasCol df c := by
  obtain ⟨nr, cols⟩ := df
  simp only [hasCol, renameCol]
  induction cols with
  | nil => rfl
  | cons p rest ih =>
    by_cases hp : p.1 = o
    · simp [hp, Ne.symm h1, Ne.symm h2, ih]
    · simp [hp, ih]

theorem hasCol_renameCol_new (df : DataFrame) (o n : String)
    (h : hasCol df o = true) :
    hasCol (renameCol df o n) n = true := by
  obtain ⟨nr, cols⟩ := df
  simp only [hasCol, renameCol, List.any_eq_true, decide_eq_true_eq] at h ⊢
  obtain ⟨p, hp, he⟩ := h
  exact ⟨(n, p.2), List.mem_map.mpr ⟨p, hp, by simp [he]⟩, rfl⟩

theorem hasCol_renameCol_old (df : DataFrame) (o n : String) (hne : o ≠ n) :
    hasCol (renameCol df o n) o = false := by
  obtain ⟨nr, cols⟩ := df
  simp only [hasCol, renameCol, List.any_eq_false, List.mem_map,
    decide_eq_true_eq]
  rintro q ⟨p, hp, rfl⟩
  by_cases hpo : p.1 = o
  · simp [hpo, Ne.symm hne]
  · simp [hpo]

theorem hasCol_addCol (df : DataFrame) (c : String) (d : Cell) (x : String) :
    hasCol (addCol df c d) x = (hasCol df x || decide (c = x)) := by
  simp [hasCol, addCol, List.any_append]

theorem fillMissing_nRows (acc : DataFrame × List String) (c : String) :
    (fillMissing acc c).1.nRows = acc.1.nRows := by
  by_cases h : hasCol acc.1 c <;> simp [fillMissing, h, addCol]

theorem fillMissing_hasCol_preserved (acc : DataFrame × List String)
    (c x : String) (h : hasCol acc.1 x = true) :
    hasCol (fillMissing acc c).1 x = true := by
  by_cases hc : hasCol acc.1 c <;> simp [fillMissing, hc, hasCol_addCol, h]

theorem fillMissing_mem_preserved (acc : DataFrame × List String)
    (c : String) (p : String × List Cell) (h : p ∈ acc.1.cols) :
    p ∈ (fillMissing acc c).1.cols := by
  by_cases hc : hasCol acc.1 c <;> simp [fillMissing, hc, addCol, h]

theorem fillMissing_log_preserved (acc : DataFrame × List String)
    (c m : String) (h : m ∈ acc.2) : m ∈ (fillMissing acc c).2 := by
  by_cases hc : hasCol acc.1 c <;> simp [fillMissing, hc, h]

theorem fillMissing_hasCol_other (acc : DataFrame × List String)
    (c x : String) (hx : x ≠ c) :
    hasCol (fillMissing acc c).1 x = hasCol acc.1 x := by
  by_cases hc : hasCol acc.1 c <;>
    simp [fillMissing, hc, hasCol_addCol, Ne.symm hx]

theorem fillMissing_hasCol_self (acc : DataFrame × List String) (c : String) :
    hasCol (fillMissing acc c).1 c = true := by
  by_cases hc : hasCol acc.1 c <;> simp [fillMissing, hc, hasCol_addCol]

theorem fillMissing_adds (acc : DataFrame × List String) (c : String)
    (h : hasCol acc.1 c = false) :
    (c, List.replicate acc.1.nRows (subregions_default c))
        ∈ (fillMissing acc c).1.cols ∧
      missing_col_msg c ∈ (fillMissing acc c).2 := by
  simp [fillMissing, h, addCol]

theorem foldl_fillMissing_nRows (cs : List String) :
    ∀ acc : DataFrame × List String,
      (cs.foldl fillMissing acc).1.nRows = acc.1.nRows := by
  induction cs with
  | nil => intro acc; rfl
  | cons c rest ih =>
    intro acc
    simp only [List.foldl_cons]
    rw [ih, fillMissing_nRows]

theorem foldl_fillMissing_hasCol_preserved (cs : List String) :
    ∀ acc : DataFrame × List String, ∀ x : String,
      hasCol acc.1 x = true → hasCol (cs.foldl fillMissing acc).1 x = true := by
  induction cs with
  | nil => intro acc x h; exact h
  | cons c rest ih =>
    intro acc x h
    simp only [List.foldl_cons]
    exact ih _ x (fillMissing_hasCol_preserved acc c x h)

theorem foldl_fillMissing_mem_preserved (cs : List String) :
    ∀ acc : DataFrame × List String, ∀ p : String × List Cell,
      p ∈ acc.1.cols → p ∈ (cs.foldl fillMissing acc).1.cols := by
  induction cs with
  | nil => intro acc p h; exact h
  | cons c rest ih =>
    intro acc p h
    simp only [List.foldl_cons]
    exact ih _ p (fillMissing_mem_preserved acc c p h)

theorem foldl_fillMissing_log_preserved (cs : List String) :
    ∀ acc : DataFrame × List String, ∀ m : String,
      m ∈ acc.2 → m ∈ (cs.foldl fillMissing acc).2 := by
  induction cs with
  | nil => intro acc m h; exact h
  | cons c rest ih =>
    intro acc m h
    simp only [List.foldl_cons]
    exact ih _ m (fillMissing_log_preserved acc c m h)

theorem foldl_fillMissing_fills (cs : List String) :
    ∀ acc : DataFrame × List String, ∀ c : String, cs.Nodup → c ∈ cs →
      hasCol (cs.foldl fillMissing acc).1 c = true ∧
      (hasCol acc.1 c = false →
        (c, List.replicate acc.1.nRows (subregions_default c))
            ∈ (cs.foldl fillMissing acc).1.cols ∧
          missing_col_msg c ∈ (cs.foldl fillMissing acc).2) := by
  induction cs with
  | nil => intro acc c _ hc; cases hc
  | cons c' rest ih =>
    intro acc c hnd hc
    have hnd' : rest.Nodup := (List.nodup_cons.mp hnd).2
    simp only [List.foldl_cons]
    rcases List.mem_cons.mp hc with hce | hcr
    · subst hce
      constructor
      · exact foldl_fillMissing_hasCol_preserved rest _ c
          (fillMissing_hasCol_self acc c)
      · intro hmiss
        obtain ⟨hmem, hlog⟩ := fillMissing_adds acc c hmiss
        exact ⟨foldl_fillMissing_mem_preserved rest _ _ hmem,
          foldl_fillMissing_log_preserved rest _ _ hlog⟩
    · have hne : c ≠ c' := fun he =>
        (List.nodup_cons.mp hnd).1 (he ▸ hcr)
      obtain ⟨h1, h2⟩ := ih (fillMissing acc c') c hnd' hcr
      refine ⟨h1, fun hmiss => ?_⟩
      have hmiss' : hasCol (fillMissing acc c').1 c = false := by
        rw [fillMissing_hasCol_other acc c' c hne]; exact hmiss
      have := h2 hmiss'
      rwa [fillMissing_nRows] at this

theorem renameCol_nRows (df : DataFrame) (o n : String) :
    (renameCol df o n).nRows = df.nRows := rfl

theorem addCol_nRows (df : DataFrame) (c : String) (d : Cell) :
    (addCol df c d).nRows = df.nRows := rfl

theorem adm1_renamed_nRows (df : DataFrame) (log : List String) :
    (adm1_renamed df log).1.nRows = df.nRows := by
  by_cases h : (hasCol df "ADM1_Name" && !hasCol df "ADM1") = true <;>
    simp [adm1_renamed, h, renameCol_nRows]

theorem adm1_renamed_hasCol_specie (df : DataFrame) (log : List String) :
    hasCol (adm1_renamed df log).1 "Specie" = hasCol df "Specie" := by
  by_cases h : (hasCol df "ADM1_Name" && !hasCol df "ADM1") = true
  · simp [adm1_renamed, h,
      hasCol_renameCol_other df "ADM1_Name" "ADM1" "Specie" (by decide) (by decide)]
  · simp [adm1_renamed, h]

theorem adm1_renamed_hasCol_species (df : DataFrame) (log : List String) :
    hasCol (adm1_renamed df log).1 "Species" = hasCol df "Species" := by
  by_cases h : (hasCol df "ADM1_Name" && !hasCol df "ADM1") = true
  · simp [adm1_renamed, h,
      hasCol_renameCol_other df "ADM1_Name" "ADM1" "Species" (by decide) (by decide)]
  · simp [adm1_renamed, h]

theorem subregions_renamed_nRows (df : DataFrame) (log : List String) :
    (subregions_renamed df log).1.nRows = df.nRows := by
  by_cases h : (hasCol (adm1_renamed df log).1 "Specie"
      && !hasCol (adm1_renamed df log).1 "Species") = true <;>
    simp [subregions_renamed, h, renameCol_nRows, adm1_renamed_nRows]

/-- C1: for every non-negative population and parameters coverage, wastage,
cost_per_animal, political_mult, delivery_mult, the Year-1 chain computes
vaccinated = population x coverage, doses = vaccinated x (1 + wastage),
base cost = doses x cost_per_animal and total cost = base cost x
political_mult x delivery_mult; in particular population 1000,
coverage 0.8, wastage 0.1, cost_per_animal 0.2, political_mult 1.5 and
delivery_mult 1.2 yield vaccinated 800, doses 880, base cost 176.0 and
total cost 316.8. -/
theorem year1_chain_correct (population coverage wastage cost_per_animal
    political_mult delivery_mult : ℚ) (hpop : 0 ≤ population) :
    vaccinated_initial population coverage = population * coverage ∧
    doses_required (vaccinated_initial population coverage) wastage
      = population * coverage * (1 + wastage) ∧
    cost_before_adj (doses_required (vaccinated_initial population coverage)
        wastage) cost_per_animal
      = population * coverage * (1 + wastage) * cost_per_animal ∧
    total_cost (cost_before_adj (doses_required
        (vaccinated_initial population coverage) wastage) cost_per_animal)
        political_mult delivery_mult
      = population * coverage * (1 + wastage) * cost_per_animal
          * political_mult * delivery_mult ∧
    vaccinated_initial 1000 (4/5) = 800 ∧
    doses_required 800 (1/10) = 880 ∧
    cost_before_adj 880 (1/5) = 176 ∧
    total_cost 176 (3/2) (6/5) = 1584/5 := by
  refine ⟨rfl, rfl, rfl, rfl, ?_, ?_, ?_, ?_⟩ <;>
    norm_num [vaccinated_initial, doses_required, cost_before_adj, total_cost]

/-- Witness for C1 at population 1000, coverage 0.8, wastage 0.1,
cost 0.2, political 1.5, delivery 1.2. -/
theorem year1_chain_correct_witness :
    (0 : ℚ) ≤ 1000 ∧
    total_cost (cost_before_adj (doses_required
        (vaccinated_initial 1000 (4/5)) (1/10)) (1/5)) (3/2) (6/5)
      = 1000 * (4/5) * (1 + 1/10) * (1/5) * (3/2) * (6/5) :=
  ⟨by norm_num,
   (year1_chain_correct 1000 (4/5) (1/10) (1/5) (3/2) (6/5)
     (by norm_num)).2.2.2.1⟩

/-- C2 counterexample: with thresholds low = high = 0 (so low ≤ high holds)
and multipliers (high-risk 2, moderate-risk 3/2, low-risk 1), psi = 0 is
exactly equal to low, yet both stepwise implementations return the low-risk
multiplier 1 and not the moderate-risk multiplier 3/2 claimed for
psi = low. -/
theorem political_multiplier_boundary_counterexample :
    political_multiplier 0 (0, 0) (2, 3/2, 1) = 1 ∧
    get_political_mult 0 0 0 2 (3/2) 1 = 1 ∧
    ((1 : ℚ) = 3/2 → False) := by
  refine ⟨?_, ?_, by norm_num⟩ <;>
    norm_num [political_multiplier, get_political_mult]

/-- C2 amended: for low ≤ high the stepwise multiplier returns the
high-risk value for psi < low, the moderate-risk value for
low ≤ psi < high and the low-risk value for psi ≥ high; psi exactly equal
to high yields the low-risk value, and psi exactly equal to low yields the
moderate-risk value provided low < high (when low = high, psi = low falls
into the psi ≥ high branch and yields the low-risk value); the streamlit
implementation agrees with the calculation-module one. -/
theorem political_multiplier_stepwise (psi low high m_hi m_mod m_lo : ℚ)
    (hlh : low ≤ high) :
    (psi < low →
      political_multiplier psi (low, high) (m_hi, m_mod, m_lo) = m_hi) ∧
    (low ≤ psi → psi < high →
      political_multiplier psi (low, high) (m_hi, m_mod, m_lo) = m_mod) ∧
    (high ≤ psi →
      political_multiplier psi (low, high) (m_hi, m_mod, m_lo) = m_lo) ∧
    political_multiplier high (low, high) (m_hi, m_mod, m_lo) = m_lo ∧
    (low < high →
      political_multiplier low (low, high) (m_hi, m_mod, m_lo) = m_mod) ∧
    get_political_mult psi low high m_hi m_mod m_lo
      = political_multiplier psi (low, high) (m_hi, m_mod, m_lo) := by
  refine ⟨?_, ?_, ?_, ?_, ?_, rfl⟩
  · intro h
    simp [political_multiplier, h]
  · intro h1 h2
    simp [political_multiplier, not_lt.mpr h1, h2]
  · intro h
    have h1 : ¬ psi < low := not_lt.mpr (hlh.trans h)
    have h2 : ¬ psi < high := not_lt.mpr h
    simp [political_multiplier, h1, h2]
  · have h1 : ¬ high < low := not_lt.mpr hlh
    simp [political_multiplier, h1, lt_irrefl]
  · intro h
    simp [political_multiplier, lt_irrefl, h]

/-- Witness for C2 at thresholds (0, 1), multipliers (2, 3/2, 1) and
psi = 0 = low: the moderate-risk multiplier is selected. -/
theorem political_multiplier_stepwise_witness :
    (0 : ℚ) ≤ 1 ∧ political_multiplier 0 (0, 1) (2, 3/2, 1) = 3/2 :=
  ⟨by norm_num,
   (political_multiplier_stepwise 0 0 1 2 (3/2) 1
     (by norm_num)).2.2.2.2.1 (by norm_num)⟩

/-- C3 counterexample: species "Cattle" is not a key of the newborn-rate
mapping.  The calculation-module fallback rate is 0.5, but the second-year
loop of the streamlit engine uses the sheep rate for it: with the default
sidebar rates (goats 60, sheep 40) the rate used is 0.4, not 0.5. -/
theorem streamlit_unknown_species_rate :
    streamlit_newborn_rate "Cattle" 60 40 = 2/5 ∧
    newborns "Cattle" 800 = 800 * (1/2) ∧
    ((2 : ℚ)/5 = 1/2 → False) := by
  have hc : speciesGoat (capitalize "Cattle") = false := by decide
  have h1 : ¬ ("Cattle" : String) = "Goats" := by decide
  have h2 : ¬ ("Cattle" : String) = "Sheep" := by decide
  refine ⟨?_, ?_, by norm_num⟩
  · rw [streamlit_newborn_rate, if_neg (by simp [hc])]
    norm_num
  · rw [newborns]
    simp [dictGetD, h1, h2]

/-- C3 amended: a species that is not a key of the newborn-rate mapping
gets rate 0.5 from the calculation-module `newborns` (the episystems and
scenario-builder paths), and a delivery channel that is not a key of the
delivery-multiplier mapping gets multiplier 1.0; both fallbacks are total
functions (non-fatal).  In the streamlit per-entity Year-2 loop, however, a
species not recognised as goat-like receives the sheep newborn rate, not
0.5. -/
theorem unknown_key_fallbacks (species channel : String) (v ng ns : ℚ)
    (hsp : species ≠ "Goats" ∧ species ≠ "Sheep")
    (hch : channel ≠ "Public" ∧ channel ≠ "Mixed" ∧ channel ≠ "Private") :
    newborns species v = v * (1/2) ∧
    delivery_channel_multiplier channel = 1 ∧
    (speciesGoat (capitalize species) = false →
      streamlit_newborn_rate species ng ns = ns / 100) := by
  refine ⟨?_, ?_, ?_⟩
  · rw [newborns]
    simp [dictGetD, hsp.1, hsp.2]
  · rw [delivery_channel_multiplier]
    simp [dictGetD, hch.1, hch.2.1, hch.2.2]
  · intro h
    rw [streamlit_newborn_rate, if_neg (by simp [h])]

/-- Witness for C3 at species "Cattle" and channel "Courier". -/
theorem unknown_key_fallbacks_witness :
    ("Cattle" ≠ "Goats" ∧ "Cattle" ≠ "Sheep") ∧
    ("Courier" ≠ "Public" ∧ "Courier" ≠ "Mixed" ∧ "Courier" ≠ "Private") ∧
    newborns "Cattle" 800 = 800 * (1/2) ∧
    delivery_channel_multiplier "Courier" = 1 :=
  ⟨by decide, by decide,
   (unknown_key_fallbacks "Cattle" "Courier" 800 60 40
     (by decide) (by decide)).1,
   (unknown_key_fallbacks "Cattle" "Courier" 800 60 40
     (by decide) (by decide)).2.1⟩

/-- C5 counterexample: "Botswana" matches the disease-free exclusion set
under normalised comparison, yet the region breakdown of
`app/streamlit_app.py` (lines 909-928) is built from the unfiltered
`country_stats`, so a Botswana entity with Year-1 cost 100 contributes 100,
not 0, to the "Southern Africa" aggregate: the filter is not applied before
every aggregation. -/
theorem streamlit_region_stats_ignores_exclusion :
    is_ppr_free "Botswana" = true ∧
    streamlit_region_stats [("Botswana", demo_stats)]
      = [("Southern Africa", demo_stats)] ∧
    (bucketVal (streamlit_region_stats [("Botswana", demo_stats)])
        "Southern Africa").y1.cost = 100 ∧
    ((100 : ℚ) = 0 → False) := by
  refine ⟨by decide, by decide, by decide, by norm_num⟩

/-- C5 amended: in `regions_countries.py` the exclusion filter runs once,
before the region and country aggregation, with exact normalised matching
(case-folded, whitespace removed): an entity whose country matches the set
is dropped from the surviving stats, contributes nothing to that tab's
region aggregates, is listed as excluded, and every surviving entity is a
non-match; surface variants such as "eSwatini"/"Eswatini" match.  The
region breakdown inside `streamlit_app.py`, however, applies no exclusion
filter (see the counterexample), so the filter does not guard every
aggregate of the repository. -/
theorem exclusion_filter_before_rc_aggregation
    (stats : List (String × CountryStats)) (c : String) (v : CountryStats)
    (h : is_ppr_free c = true) :
    (filter_ppr_free_countries ((c, v) :: stats)).1
      = (filter_ppr_free_countries stats).1 ∧
    rc_region_stats ((c, v) :: stats) = rc_region_stats stats ∧
    c ∈ (filter_ppr_free_countries ((c, v) :: stats)).2 ∧
    (∀ p ∈ (filter_ppr_free_countries stats).1, is_ppr_free p.1 = false) ∧
    is_ppr_free "eSwatini" = true ∧
    is_ppr_free "Eswatini" = true := by
  have h1 : (filter_ppr_free_countries ((c, v) :: stats)).1
      = (filter_ppr_free_countries stats).1 := by
    simp [filter_ppr_free_countries, List.filter_cons, h]
  refine ⟨h1, ?_, ?_, ?_, by decide, by decide⟩
  · simp only [rc_region_stats]
    rw [h1]
  · simp [filter_ppr_free_countries, List.filter_cons, h]
  · intro p hp
    have := (List.mem_filter.mp hp).2
    simpa using this

/-- Witness for C5 (amended) at the excluded country "eSwatini" prepended
to a one-entity list for Kenya. -/
theorem exclusion_filter_before_rc_aggregation_witness :
    is_ppr_free "eSwatini" = true ∧
    rc_region_stats (("eSwatini", demo_stats) :: [("Kenya", demo_stats2)])
      = rc_region_stats [("Kenya", demo_stats2)] :=
  ⟨by decide,
   (exclusion_filter_before_rc_aggregation [("Kenya", demo_stats2)]
     "eSwatini" demo_stats (by decide)).2.1⟩

/-- C6: aggregation conserves sums.  For every region lookup and every
partition of the surviving entities: each region's aggregate record equals
the sum of the country records mapped to that region (componentwise, so
for cost, vaccinated, doses and wasted of both years alike); the sum over
all region buckets equals the sum over all countries (no entity
double-counted or dropped); the same holds for the filtered aggregation of
`regions_countries.py`; and the continental totals of
`continental_overview.py` equal the sum over all included countries. -/
theorem aggregation_conservation (regionOf : String → String)
    (stats : List (String × CountryStats)) (r : String) :
    bucketVal (regionFold regionOf stats) r
      = statsSum (stats.filter (fun p => regionOf p.1 = r)) ∧
    statsSum (regionFold regionOf stats) = statsSum stats ∧
    statsSum (rc_region_stats stats)
      = statsSum (filter_ppr_free_countries stats).1 ∧
    continental_total_cost_y1 stats
      = (statsSum (continental_filtered stats)).y1.cost ∧
    continental_total_cost_y2 stats
      = (statsSum (continental_filtered stats)).y2.cost :=
  ⟨bucketVal_regionFold regionOf r stats,
   statsSum_regionFold regionOf stats,
   statsSum_regionFold rc_aggregation_region
     (filter_ppr_free_countries stats).1,
   statsSum_cost_y1 (continental_filtered stats),
   statsSum_cost_y2 (continental_filtered stats)⟩

/-- C7: the per-entity cost lookup of `get_country_cost` and the
region-level aggregations (the streamlit tab and the
`regions_countries.py` tab over the duplicated `cost_data` mapping) use the
same region for every country, and an unmapped country falls into the same
fixed default region "West Africa" everywhere. -/
theorem region_lookup_consistent (country : String)
    (h : ∀ p ∈ country_region_map, p.1 ≠ country) :
    pricing_region country = streamlit_aggregation_region country ∧
    streamlit_aggregation_region country = rc_aggregation_region country ∧
    pricing_region country = "West Africa" ∧
    rc_aggregation_region country = "West Africa" :=
  ⟨rfl, rfl, dictGetD_of_not_mem _ _ _ h, dictGetD_of_not_mem _ _ _ h⟩

/-- Witness for C7 at the unmapped country "Atlantis". -/
theorem region_lookup_consistent_witness :
    (∀ p ∈ country_region_map, p.1 ≠ "Atlantis") ∧
    pricing_region "Atlantis" = "West Africa" :=
  ⟨by decide, (region_lookup_consistent "Atlantis" (by decide)).2.2.1⟩

/-- C8: the schema normalizer renames the "Specie" alias to the canonical
"Species" only when the canonical column is absent; every absent required
column is synthesized with its documented default (density weight 1.0,
forecast population 0, textual fields the literal "Unknown") while a record
of the substitution is appended to the audit log; missing optional columns
raise no error (validation is total), and only an unreadable source file
produces a fatal error. -/
theorem schema_normalizer_policy (df : DataFrame) (log : List String) :
    (hasCol df "Specie" = true → hasCol df "Species" = false →
      hasCol (subregions_renamed df log).1 "Species" = true ∧
      hasCol (subregions_renamed df log).1 "Specie" = false) ∧
    (hasCol df "Species" = true →
      hasCol (subregions_renamed df log).1 "Species" = true ∧
      hasCol (subregions_renamed df log).1 "Specie" = hasCol df "Specie") ∧
    (∀ c ∈ subregions_required_cols,
      hasCol (validate_subregions df log).1 c = true) ∧
    (∀ c ∈ subregions_required_cols,
      hasCol (subregions_renamed df log).1 c = false →
      (c, List.replicate df.nRows (subregions_default c))
          ∈ (validate_subregions df log).1.cols ∧
        missing_col_msg c ∈ (validate_subregions df log).2) ∧
    read_xlsx none = Except.error "ERROR reading XLSX" ∧
    (∀ raw : DataFrame, ∃ out, read_xlsx (some raw) = Except.ok out) := by
  have hnd : subregions_required_cols.Nodup := by decide
  refine ⟨?_, ?_, ?_, ?_, rfl, fun raw => ⟨_, rfl⟩⟩
  · intro h1 h2
    have hsp : hasCol (adm1_renamed df log).1 "Specie" = true := by
      rw [adm1_renamed_hasCol_specie]; exact h1
    have hss : hasCol (adm1_renamed df log).1 "Species" = false := by
      rw [adm1_renamed_hasCol_species]; exact h2
    have hcond : (hasCol (adm1_renamed df log).1 "Specie"
        && !hasCol (adm1_renamed df log).1 "Species") = true := by
      rw [hsp, hss]; rfl
    constructor
    · simp only [subregions_renamed, hcond, if_true]
      exact hasCol_renameCol_new _ _ _ hsp
    · simp only [subregions_renamed, hcond, if_true]
      exact hasCol_renameCol_old _ _ _ (by decide)
  · intro h
    have hss : hasCol (adm1_renamed df log).1 "Species" = true := by
      rw [adm1_renamed_hasCol_species]; exact h
    have hcond : (hasCol (adm1_renamed df log).1 "Specie"
        && !hasCol (adm1_renamed df log).1 "Species") = false := by
      rw [hss]; simp
    constructor
    · simp only [subregions_renamed, hcond, Bool.false_eq_true, if_false]
      exact hss
    · simp only [subregions_renamed, hcond, Bool.false_eq_true, if_false]
      exact adm1_renamed_hasCol_specie df log
  · intro c hc
    exact (foldl_fillMissing_fills subregions_required_cols
      (subregions_renamed df log) c hnd hc).1
  · intro c hc hmiss
    have := (foldl_fillMissing_fills subregions_required_cols
      (subregions_renamed df log) c hnd hc).2 hmiss
    rwa [subregions_renamed_nRows] at this

/-- Witness for C8 at a concrete frame with only `Country` and `Specie`
columns: `Density` is synthesized as the constant-1 column with the audit
record appended, and the unreadable-file path errors. -/
theorem schema_normalizer_policy_witness :
    ("Density" ∈ subregions_required_cols ∧
      hasCol (subregions_renamed demo_frame []).1 "Density" = false) ∧
    (("Density", List.replicate demo_frame.nRows (subregions_default "Density"))
        ∈ (validate_subregions demo_frame []).1.cols ∧
      missing_col_msg "Density" ∈ (validate_subregions demo_frame []).2) :=
  ⟨⟨by decide, by decide⟩,
   (schema_normalizer_policy demo_frame []).2.2.2.1 "Density"
     (by decide) (by decide)⟩

/-- C9: a type or arithmetic error while processing one entity (here a
population cell whose text cannot convert to float) is caught at that
entity's boundary: the outcome carries the reported error message, every
figure extracted from it defaults to 0 so the entity contributes zero to
all aggregates, the whole row for a pair of such entities is the zero row,
and the table is computed entity-wise, so the remaining entities are still
processed. -/
theorem entity_failure_isolated (d : EntityData) (params : ScenarioParams)
    (year : Nat) (s : String) (hmal : d.coverage100 = Cell.str s) :
    (∃ msg, calculate_costs (some d) params year = CalcOutcome.failed msg) ∧
    (∀ proj : Figures → ℚ,
      getFig (calculate_costs (some d) params year) proj = 0) ∧
    pair_row params (some d) (some d)
      = ⟨0, 0, 0, 0, 0, 0, 0, 0, 0, 0, 0, 0⟩ ∧
    (∀ pairs1 pairs2 : List (Option EntityData × Option EntityData),
      buildTable params (pairs1 ++ pairs2)
        = buildTable params pairs1 ++ buildTable params pairs2) := by
  have hf : ∀ y : Nat, calculate_costs (some d) params y
      = CalcOutcome.failed
          ("Calculation error: " ++ ("could not convert string to float: " ++ s)) := by
    intro y
    simp [calculate_costs, hmal, pythonFloat]
  refine ⟨⟨_, hf year⟩, ?_, ?_, ?_⟩
  · intro proj
    rw [hf year]
    rfl
  · simp [pair_row, hf, getFig]
  · intro pairs1 pairs2
    simp [buildTable]

/-- Witness for C9 at the concrete malformed row (population cell
"Unknown") under the episystem default parameters. -/
theorem entity_failure_isolated_witness :
    demo_bad_entity.coverage100 = Cell.str "Unknown" ∧
    (∀ proj : Figures → ℚ,
      getFig (calculate_costs (some demo_bad_entity) demo_params 1) proj = 0) :=
  ⟨rfl,
   (entity_failure_isolated demo_bad_entity demo_params 1 "Unknown" rfl).2.1⟩

/-- C10 (implicit): in the per-country loops, a record whose capitalised
species is neither goat-like nor sheep-like adds its vaccinated count to
neither the goat tally nor the sheep tally, in either year, while its doses
(and cost and wasted figures) are still accumulated; consequently a
country's reported total animals (goats + sheep) can be strictly less than
its reported doses divided by (1 + wastage), as the concrete "Cattle"
record shows. -/
theorem species_dispatch_gap (species : String)
    (pop cov wast syc ng ns cpa pm dm : ℚ)
    (hg : speciesGoat (capitalize species) = false)
    (hs : speciesSheep (capitalize species) = false) :
    (y1_record_stats species pop cov wast cpa pm dm).goat = 0 ∧
    (y1_record_stats species pop cov wast cpa pm dm).sheep = 0 ∧
    (y1_record_stats species pop cov wast cpa pm dm).doses
      = doses_required (vaccinated_initial pop (cov/100)) (wast/100) ∧
    (y1_record_stats species pop cov wast cpa pm dm).cost
      = total_cost (cost_before_adj (doses_required
          (vaccinated_initial pop (cov/100)) (wast/100)) cpa) pm dm ∧
    (y2_record_stats species pop cov wast syc ng ns cpa pm dm).goat = 0 ∧
    (y2_record_stats species pop cov wast syc ng ns cpa pm dm).sheep = 0 ∧
    (y1_record_stats "Cattle" 1000 80 10 (1/5) (3/2) (6/5)).goat
        + (y1_record_stats "Cattle" 1000 80 10 (1/5) (3/2) (6/5)).sheep
      < (y1_record_stats "Cattle" 1000 80 10 (1/5) (3/2) (6/5)).doses
          / (1 + 10/100) := by
  have hc : speciesGoat (capitalize "Cattle") = false := by decide
  have hcs : speciesSheep (capitalize "Cattle") = false := by decide
  refine ⟨?_, ?_, rfl, rfl, ?_, ?_, ?_⟩
  · simp [y1_record_stats, hg]
  · simp [y1_record_stats, hg, hs]
  · simp [y2_record_stats, hg]
  · simp [y2_record_stats, hg, hs]
  · simp only [y1_record_stats, hc, hcs, Bool.false_eq_true, if_false,
      vaccinated_initial, doses_required]
    norm_num

/-- Witness for C10 at the concrete species "Cattle". -/
theorem species_dispatch_gap_witness :
    speciesGoat (capitalize "Cattle") = false ∧
    speciesSheep (capitalize "Cattle") = false ∧
    (y1_record_stats "Cattle" 1000 80 10 (1/5) (3/2) (6/5)).goat = 0 :=
  ⟨by decide, by decide,
   (species_dispatch_gap "Cattle" 1000 80 10 100 60 40 (1/5) (3/2) (6/5)
     (by decide) (by decide)).1⟩

/-- C4 counterexample: for an entity whose species is not a key of the
newborn-rate mapping the streamlit Year-2 loop does not compute
newborn_count = vaccinated_y1 x newborn_rate_by_species[species]: a
"Cattle" record (population 1000, coverage 80, wastage 10, second-year
coverage 100, rates goats 60 / sheep 40) yields doses_y2 = 352 (the sheep
rate 0.4 is used), while the claimed cascade through the mapping (whose
non-key fallback is 0.5, as `newborns` implements) yields 440. -/
theorem year2_cascade_counterexample :
    (y2_record_stats "Cattle" 1000 80 10 100 60 40 (1/5) (3/2) (6/5)).doses
      = 352 ∧
    doses_required (second_year_coverage
        (newborns "Cattle" (vaccinated_initial 1000 (80/100))) (100/100))
        (10/100)
      = 440 ∧
    ((352 : ℚ) = 440 → False) := by
  have hc : speciesGoat (capitalize "Cattle") = false := by decide
  have h1 : ¬ ("Cattle" : String) = "Goats" := by decide
  have h2 : ¬ ("Cattle" : String) = "Sheep" := by decide
  refine ⟨?_, ?_, by norm_num⟩
  · simp [y2_record_stats, streamlit_newborn_rate, hc, vaccinated_initial,
      second_year_coverage, doses_required]
    norm_num
  · simp [newborns, dictGetD, h1, h2, vaccinated_initial,
      second_year_coverage, doses_required]
    norm_num

/-- C4 amended: in the streamlit per-entity Year-2 loop the figures of
every entity cascade from the Year-1 vaccinated count and not from the raw
population: newborn_count = vaccinated_y1 x (the rate the loop selects for
the species), vaccinated_y2 = newborn_count x the configured second-year
coverage rate, doses_y2 = vaccinated_y2 x (1 + wastage), and
cost_y2 = doses_y2 x cost_per_animal x political_mult x delivery_mult.
The selected rate is the configured goats rate for a goat-like species and
the configured sheep rate for a sheep-like species (a species outside the
mapping also falls to the sheep rate — the counterexample).  The
episystems Year-2 branch runs the same cascade from the vaccinated count
with the calculation-module default newborn rates and second-year coverage
fixed at its default 1.0 rather than a configured rate.  The Goats
continuation of the end-to-end example gives newborn count 480,
vaccinated_y2 480, doses_y2 528 and cost_y2 190.08. -/
theorem year2_cascade_amended (species : String)
    (pop cov wast syc ng ns cpa pm dm : ℚ) :
    (y2_record_stats species pop cov wast syc ng ns cpa pm dm).doses
      = doses_required (second_year_coverage
          (vaccinated_initial pop (cov/100)
            * streamlit_newborn_rate species ng ns) (syc/100)) (wast/100) ∧
    (y2_record_stats species pop cov wast syc ng ns cpa pm dm).cost
      = total_cost (cost_before_adj (doses_required (second_year_coverage
          (vaccinated_initial pop (cov/100)
            * streamlit_newborn_rate species ng ns) (syc/100)) (wast/100))
          cpa) pm dm ∧
    (y2_record_stats species pop cov wast syc ng ns cpa pm dm).wasted
      = doses_required (second_year_coverage
          (vaccinated_initial pop (cov/100)
            * streamlit_newborn_rate species ng ns) (syc/100)) (wast/100)
        - second_year_coverage
            (vaccinated_initial pop (cov/100)
              * streamlit_newborn_rate species ng ns) (syc/100) ∧
    (speciesGoat (capitalize species) = true →
      streamlit_newborn_rate species ng ns = ng / 100 ∧
      (y2_record_stats species pop cov wast syc ng ns cpa pm dm).goat
        = second_year_coverage
            (vaccinated_initial pop (cov/100) * (ng/100)) (syc/100)) ∧
    (speciesGoat (capitalize species) = false →
      speciesSheep (capitalize species) = true →
      streamlit_newborn_rate species ng ns = ns / 100 ∧
      (y2_record_stats species pop cov wast syc ng ns cpa pm dm).sheep
        = second_year_coverage
            (vaccinated_initial pop (cov/100) * (ns/100)) (syc/100)) ∧
    (∀ (d : EntityData) (params : ScenarioParams) (q : ℚ),
      d.coverage100 = Cell.num q →
      calculate_costs (some d) params 2
        = CalcOutcome.ok
            { animals_vaccinated :=
                second_year_coverage
                  (newborns d.species (vaccinated_initial q params.coverage_rate))
            , doses_needed :=
                doses_required (second_year_coverage
                  (newborns d.species (vaccinated_initial q params.coverage_rate)))
                  params.wastage_rate
            , doses_wasted :=
                doses_required (second_year_coverage
                  (newborns d.species (vaccinated_initial q params.coverage_rate)))
                  params.wastage_rate
                - second_year_coverage
                    (newborns d.species (vaccinated_initial q params.coverage_rate))
            , total_cost_val :=
                total_cost (cost_before_adj (doses_required
                  (second_year_coverage (newborns d.species
                    (vaccinated_initial q params.coverage_rate)))
                  params.wastage_rate) params.cost_per_animal)
                  (political_multiplier params.psi)
                  (delivery_channel_multiplier params.delivery_channel) }) ∧
    vaccinated_initial 1000 (80/100) * (60/100) = 480 ∧
    (y2_record_stats "Goats" 1000 80 10 100 60 40 (1/5) (3/2) (6/5)).goat
      = 480 ∧
    (y2_record_stats "Goats" 1000 80 10 100 60 40 (1/5) (3/2) (6/5)).doses
      = 528 ∧
    (y2_record_stats "Goats" 1000 80 10 100 60 40 (1/5) (3/2) (6/5)).cost
      = 4752/25 := by
  have hg : speciesGoat (capitalize "Goats") = true := by decide
  refine ⟨rfl, rfl, rfl, ?_, ?_, ?_, ?_, ?_, ?_, ?_⟩
  · intro h
    refine ⟨?_, ?_⟩ <;> simp [streamlit_newborn_rate, y2_record_stats, h]
  · intro h hs
    refine ⟨?_, ?_⟩ <;> simp [streamlit_newborn_rate, y2_record_stats, h, hs]
  · intro d params q hd
    simp [calculate_costs, hd, pythonFloat]
  all_goals
    simp [y2_record_stats, streamlit_newborn_rate, hg, vaccinated_initial,
      second_year_coverage, doses_required, cost_before_adj, total_cost] <;>
    norm_num

/-- Witness for C4 (amended) at the goat-like species "Goats" and at a
concrete well-formed episystem row. -/
theorem year2_cascade_amended_witness :
    speciesGoat (capitalize "Goats") = true ∧
    (y2_record_stats "Goats" 1000 80 10 100 60 40 (1/5) (3/2) (6/5)).goat
      = second_year_coverage
          (vaccinated_initial 1000 (80/100) * (60/100)) (100/100) ∧
    demo_good_entity.coverage100 = Cell.num 1000 ∧
    calculate_costs (some demo_good_entity) demo_params 2
      = CalcOutcome.ok
          { animals_vaccinated :=
              second_year_coverage (newborns demo_good_entity.species
                (vaccinated_initial 1000 demo_params.coverage_rate))
          , doses_needed :=
              doses_required (second_year_coverage
                (newborns demo_good_entity.species
                  (vaccinated_initial 1000 demo_params.coverage_rate)))
                demo_params.wastage_rate
          , doses_wasted :=
              doses_required (second_year_coverage
                (newborns demo_good_entity.species
                  (vaccinated_initial 1000 demo_params.coverage_rate)))
                demo_params.wastage_rate
              - second_year_coverage
                  (newborns demo_good_entity.species
                    (vaccinated_initial 1000 demo_params.coverage_rate))
          , total_cost_val :=
              total_cost (cost_before_adj (doses_required
                (second_year_coverage (newborns demo_good_entity.species
                  (vaccinated_initial 1000 demo_params.coverage_rate)))
                demo_params.wastage_rate) demo_params.cost_per_animal)
                (political_multiplier demo_params.psi)
                (delivery_channel_multiplier demo_params.delivery_channel) } :=
  ⟨by decide,
   ((year2_cascade_amended "Goats" 1000 80 10 100 60 40 (1/5) (3/2)
     (6/5)).2.2.2.1 (by decide)).2,
   rfl,
   (year2_cascade_amended "Goats" 1000 80 10 100 60 40 (1/5) (3/2)
     (6/5)).2.2.2.2.2.1 demo_good_entity demo_params 1000 rfl⟩
